import Mathlib

/-!
# Verification of the crypto-watch dashboard core

Shallow embedding of `src/App.tsx`: the data model (`CryptoData`, `Alert`),
the formatting helpers (`formatPrice`, `formatLargeNumber`), the alert
derivation loop, the per-cycle state update `fetchCryptoData` (both its
success and its catch branch), and the hard-coded fallback dataset
`mockData`.  Numbers are modelled as rationals; `toFixed(2)` is modelled as
decimal rounding with ties away from zero on the magnitude, with the sign
taken from the original value, following the ECMAScript description.
-/

/-- One cryptocurrency's market data, mirroring the `CryptoData` interface. -/
structure CryptoData where
  id : String
  name : String
  symbol : String
  current_price : ℚ
  price_change_percentage_24h : ℚ
  market_cap : ℚ
  total_volume : ℚ
  high_24h : ℚ
  low_24h : ℚ
deriving DecidableEq

/-- Alert categories, mirroring `type: 'price' | 'volume' | 'trend'`. -/
inductive AlertType where
  | price
  | volume
  | trend
deriving DecidableEq

/-- A derived alert record, mirroring the `Alert` interface.  The synthetic
`id` (`Date.now() + Math.random()` in the source) and the `timestamp`
(`new Date()`) are modelled as rationals supplied by the environment. -/
structure Alert where
  id : ℚ
  coin : String
  message : String
  type : AlertType
  timestamp : ℚ
deriving DecidableEq

/-- Floor of a rational, computed on the numerator and denominator. -/
def ratFloor (q : ℚ) : ℤ :=
  Int.fdiv q.num (q.den : ℤ)

/-- Render a nonnegative rational with exactly two decimal digits,
rounding ties upward (ECMAScript `toFixed` picks the larger candidate). -/
def toFixed2abs (x : ℚ) : String :=
  let n : ℕ := (ratFloor (x * 100 + 1 / 2)).toNat
  let fr : ℕ := n % 100
  toString (n / 100) ++ "." ++ (if fr < 10 then "0" ++ toString fr else toString fr)

/-- Model of JavaScript `q.toFixed(2)`: sign of the original value followed
by the two-decimal rendering of its magnitude. -/
def toFixed2 (q : ℚ) : String :=
  (if q < 0 then "-" else "") ++ toFixed2abs |q|

/-- Insert a comma after every three characters of a reversed digit list,
the digit-grouping of `Intl.NumberFormat` for the `en-US` locale. -/
def commaGroups (ds : List Char) : List Char :=
  if _h : ds.length ≤ 3 then ds
  else ds.take 3 ++ ',' :: commaGroups (ds.drop 3)
termination_by ds.length
decreasing_by
  simp only [List.length_drop]
  omega

/-- Model of `formatPrice`: USD currency rendering with exactly two
fractional digits and thousands grouping
(`Intl.NumberFormat('en-US', { style: 'currency', currency: 'USD', ... })`). -/
def formatPrice (q : ℚ) : String :=
  let cents : ℕ := (ratFloor (|q| * 100 + 1 / 2)).toNat
  let ip : ℕ := cents / 100
  let fr : ℕ := cents % 100
  let ipStr := String.mk ((commaGroups (toString ip).data.reverse).reverse)
  (if q < 0 then "-" else "") ++ "$" ++ ipStr ++ "." ++
    (if fr < 10 then "0" ++ toString fr else toString fr)

/-- Model of `formatLargeNumber`: abbreviate to billions for values
`>= 1e9`, to millions for values `>= 1e6`, otherwise fall back to
`formatPrice`. -/
def formatLargeNumber (num : ℚ) : String :=
  if num ≥ 1000000000 then "$" ++ toFixed2 (num / 1000000000) ++ "B"
  else if num ≥ 1000000 then "$" ++ toFixed2 (num / 1000000) ++ "M"
  else formatPrice num

example : formatLargeNumber 2500000000 = "$2.50B" := by with_unfolding_all decide
example : formatLargeNumber 450000000 = "$450.00M" := by with_unfolding_all decide
example : formatLargeNumber (52 / 100) = "$0.52" := by with_unfolding_all decide
example : formatLargeNumber (-2500000000) = "-$2,500,000,000.00" := by
  with_unfolding_all decide

/-- Whether a snapshot breaches the alert threshold:
`Math.abs(crypto.price_change_percentage_24h) > 5`. -/
def breaches (c : CryptoData) : Bool :=
  |c.price_change_percentage_24h| > 5

/-- The alert message template:
`` `${name} has ${change > 0 ? 'increased' : 'decreased'} by ${Math.abs(change).toFixed(2)}% in 24h` ``. -/
def alertMessage (c : CryptoData) : String :=
  c.name ++ " has " ++
    (if c.price_change_percentage_24h > 0 then "increased" else "decreased") ++
    " by " ++ toFixed2 |c.price_change_percentage_24h| ++ "% in 24h"

/-- The alert record pushed for one breaching snapshot. -/
def mkAlert (aid : ℚ) (now : ℚ) (c : CryptoData) : Alert :=
  { id := aid
    coin := c.name
    message := alertMessage c
    type := AlertType.price
    timestamp := now }

/-- The `data.forEach` loop of `fetchCryptoData`: scan the asset list in
order, pushing one alert per breaching snapshot.  `genId k` is the value of
`Date.now() + Math.random()` for the `k`-th push of the cycle. -/
def deriveAlertsAux (genId : ℕ → ℚ) (now : ℚ) (k : ℕ) : List CryptoData → List Alert
  | [] => []
  | c :: rest =>
      if breaches c then
        mkAlert (genId k) now c :: deriveAlertsAux genId now (k + 1) rest
      else
        deriveAlertsAux genId now k rest

/-- The Alert Deriver: the `newAlerts` list built by one cycle. -/
def deriveAlerts (genId : ℕ → ℚ) (now : ℚ) (data : List CryptoData) : List Alert :=
  deriveAlertsAux genId now 0 data

/-- `setAlerts(prev => [...newAlerts, ...prev].slice(0, 5))`, executed only
when `newAlerts.length > 0`. -/
def updateAlerts (newAlerts prev : List Alert) : List Alert :=
  if newAlerts.length > 0 then (newAlerts ++ prev).take 5 else prev

/-- The component's view state: `cryptos`, `loading`, `alerts`,
`lastUpdate`. -/
structure AppState where
  cryptos : List CryptoData
  loading : Bool
  alerts : List Alert
  lastUpdate : ℚ
deriving DecidableEq

/-- The initial state of the four `useState` hooks: empty asset list,
`loading = true`, empty alert list, `lastUpdate = new Date()` at mount
time `t0`. -/
def initState (t0 : ℚ) : AppState :=
  { cryptos := [], loading := true, alerts := [], lastUpdate := t0 }

/-- The environment of one refresh cycle: the outcome of the network fetch
(parsed body on success, error description otherwise), the id source for
`Date.now() + Math.random()`, and the wall-clock time `now`. -/
structure FetchInput where
  result : Except String (List CryptoData)
  genId : ℕ → ℚ
  now : ℚ

/-- The hard-coded fallback dataset installed by the `catch` branch. -/
def mockData : List CryptoData :=
  [ { id := "bitcoin", name := "Bitcoin", symbol := "btc",
      current_price := 42500, price_change_percentage_24h := 2.5,
      market_cap := 830000000000, total_volume := 25000000000,
      high_24h := 43000, low_24h := 41800 },
    { id := "ethereum", name := "Ethereum", symbol := "eth",
      current_price := 2250, price_change_percentage_24h := -1.8,
      market_cap := 270000000000, total_volume := 15000000000,
      high_24h := 2300, low_24h := 2200 },
    { id := "binancecoin", name := "BNB", symbol := "bnb",
      current_price := 310, price_change_percentage_24h := 3.2,
      market_cap := 47000000000, total_volume := 1200000000,
      high_24h := 315, low_24h := 305 },
    { id := "solana", name := "Solana", symbol := "sol",
      current_price := 98, price_change_percentage_24h := -5.5,
      market_cap := 42000000000, total_volume := 2500000000,
      high_24h := 105, low_24h := 96 },
    { id := "cardano", name := "Cardano", symbol := "ada",
      current_price := 0.52, price_change_percentage_24h := 1.2,
      market_cap := 18000000000, total_volume := 450000000,
      high_24h := 0.54, low_24h := 0.51 },
    { id := "ripple", name := "XRP", symbol := "xrp",
      current_price := 0.61, price_change_percentage_24h := 4.8,
      market_cap := 33000000000, total_volume := 1800000000,
      high_24h := 0.63, low_24h := 0.58 } ]

/-- One invocation of `fetchCryptoData`, as a total state transformer (no
error escapes: the `catch` swallows every failure).  Success branch:
install the fetched data, clear `loading`, stamp `lastUpdate`, run the
alert scan and, when it produced anything, prepend-and-truncate the alert
list.  Catch branch: install `mockData`, clear `loading`, stamp
`lastUpdate` — and nothing else. -/
def fetchCryptoData (inp : FetchInput) (s : AppState) : AppState :=
  match inp.result with
  | Except.ok data =>
      let s1 := { s with cryptos := data, loading := false, lastUpdate := inp.now }
      { s1 with alerts := updateAlerts (deriveAlerts inp.genId inp.now data) s1.alerts }
  | Except.error _ =>
      { s with cryptos := mockData, loading := false, lastUpdate := inp.now }

/-- A sequence of refresh cycles, applied oldest first. -/
def runCycles (inps : List FetchInput) (s : AppState) : AppState :=
  inps.foldl (fun t i => fetchCryptoData i t) s

/-- The trace of states: the start state followed by the state after each
cycle. -/
def statesTrace : List FetchInput → AppState → List AppState
  | [], s => [s]
  | i :: rest, s => s :: statesTrace rest (fetchCryptoData i s)

/-- One rendered dashboard card, carrying exactly the data the view reads
from a snapshot (lines 182–224 of `App.tsx`). -/
structure Card where
  title : String
  priceText : String
  changePositive : Bool
  changeText : String
  marketCapText : String
  volumeText : String
  highText : String
  lowText : String
deriving DecidableEq

/-- Rendering of one snapshot card.  The positive/negative indicator is
`crypto.price_change_percentage_24h >= 0`. -/
def renderCard (c : CryptoData) : Card :=
  { title := c.name
    priceText := formatPrice c.current_price
    changePositive := c.price_change_percentage_24h ≥ 0
    changeText := toFixed2 |c.price_change_percentage_24h| ++ "%"
    marketCapText := formatLargeNumber c.market_cap
    volumeText := formatLargeNumber c.total_volume
    highText := formatPrice c.high_24h
    lowText := formatPrice c.low_24h }

/-- `cryptos.map(crypto => <div className="card" ...>)`: the card list in
asset-list order. -/
def renderCards (s : AppState) : List Card :=
  s.cryptos.map renderCard

/-! ## Helper lemmas about the alert scan -/

theorem deriveAlertsAux_map_coin (genId : ℕ → ℚ) (now : ℚ) (data : List CryptoData) :
    ∀ k : ℕ, (deriveAlertsAux genId now k data).map Alert.coin =
      (data.filter breaches).map CryptoData.name := by
  induction data with
  | nil => intro k; rfl
  | cons c rest ih =>
      intro k
      by_cases h : breaches c
      · simp [deriveAlertsAux, List.filter_cons, h, mkAlert, ih]
      · simp [deriveAlertsAux, List.filter_cons, h, ih]

theorem mem_deriveAlertsAux {genId : ℕ → ℚ} {now : ℚ} {a : Alert} :
    ∀ {data : List CryptoData} {k : ℕ}, a ∈ deriveAlertsAux genId now k data →
      ∃ c ∈ data, breaches c = true ∧ ∃ j : ℕ, a = mkAlert (genId j) now c := by
  intro data
  induction data with
  | nil => intro k h; simp [deriveAlertsAux] at h
  | cons c rest ih =>
      intro k h
      by_cases hb : breaches c
      · rw [deriveAlertsAux, if_pos hb] at h
        rcases List.mem_cons.mp h with h1 | h2
        · exact ⟨c, List.mem_cons_self c rest, hb, k, h1⟩
        · rcases ih h2 with ⟨d, hd, hbd, j, rfl⟩
          exact ⟨d, List.mem_cons_of_mem c hd, hbd, j, rfl⟩
      · rw [deriveAlertsAux, if_neg hb] at h
        rcases ih h with ⟨d, hd, hbd, j, rfl⟩
        exact ⟨d, List.mem_cons_of_mem c hd, hbd, j, rfl⟩

theorem deriveAlertsAux_eq_nil_iff {genId : ℕ → ℚ} {now : ℚ} :
    ∀ {data : List CryptoData} {k : ℕ},
      deriveAlertsAux genId now k data = [] ↔ ∀ c ∈ data, breaches c = false := by
  intro data
  induction data with
  | nil => intro k; simp [deriveAlertsAux]
  | cons c rest ih =>
      intro k
      by_cases hb : breaches c
      · rw [deriveAlertsAux, if_pos hb]
        simp [hb]
      · rw [deriveAlertsAux, if_neg hb]
        simp only [Bool.not_eq_true] at hb
        simp [ih, hb]

/-! ## C2 -/

/-- A snapshot sitting exactly on the threshold, used to exercise the
strict-inequality boundary. -/
def boundarySnapshot : CryptoData :=
  { id := "edge", name := "Edge", symbol := "edg",
    current_price := 1, price_change_percentage_24h := 5,
    market_cap := 0, total_volume := 0, high_24h := 0, low_24h := 0 }

/-- C2: one alert-derivation pass emits, in asset-list order, exactly one
alert per snapshot whose absolute 24h change strictly exceeds 5, each
referencing that asset's name, and none for any snapshot with
`|change| <= 5`; in particular a change of exactly 5 emits nothing. -/
theorem c2_one_alert_per_breaching_snapshot :
    (∀ (genId : ℕ → ℚ) (now : ℚ) (data : List CryptoData),
      (deriveAlerts genId now data).map Alert.coin =
        (data.filter breaches).map CryptoData.name) ∧
    (∀ (genId : ℕ → ℚ) (now : ℚ) (c : CryptoData),
      |c.price_change_percentage_24h| ≤ 5 → deriveAlerts genId now [c] = []) := by
  constructor
  · intro genId now data
    exact deriveAlertsAux_map_coin genId now data 0
  · intro genId now c h
    have hb : breaches c = false := by
      simp only [breaches, decide_eq_false_iff_not, not_lt]
      exact h
    simp [deriveAlerts, deriveAlertsAux, hb]

/-- Witness for C2 at the boundary input (change exactly 5). -/
theorem c2_witness : deriveAlerts (fun _ => 0) 0 [boundarySnapshot] = [] :=
  c2_one_alert_per_breaching_snapshot.2 (fun _ => 0) 0 boundarySnapshot
    (by with_unfolding_all decide)

/-! ## C7 -/

/-- C7: `formatLargeNumber` abbreviates to billions with two decimals for
inputs `>= 1e9`, to millions with two decimals for inputs in `[1e6, 1e9)`,
and otherwise falls through to plain USD currency formatting; the spec's
three concrete examples evaluate as stated. -/
theorem c7_formatLargeNumber_contract :
    (∀ q : ℚ, 1000000000 ≤ q →
      formatLargeNumber q = "$" ++ toFixed2 (q / 1000000000) ++ "B") ∧
    (∀ q : ℚ, 1000000 ≤ q → q < 1000000000 →
      formatLargeNumber q = "$" ++ toFixed2 (q / 1000000) ++ "M") ∧
    (∀ q : ℚ, q < 1000000 → formatLargeNumber q = formatPrice q) ∧
    formatLargeNumber 2500000000 = "$2.50B" ∧
    formatLargeNumber 450000000 = "$450.00M" ∧
    formatLargeNumber (52 / 100) = "$0.52" := by
  refine ⟨?_, ?_, ?_, ?_, ?_, ?_⟩
  · intro q h
    rw [formatLargeNumber, if_pos h]
  · intro q h1 h2
    rw [formatLargeNumber, if_neg (not_le.mpr h2), if_pos h1]
  · intro q h
    have h9 : ¬ (1000000000 : ℚ) ≤ q := by
      intro hc
      exact absurd (lt_of_lt_of_le h (by norm_num)) (not_lt.mpr hc)
    have h6 : ¬ (1000000 : ℚ) ≤ q := not_le.mpr h
    rw [formatLargeNumber, if_neg h9, if_neg h6]
  · with_unfolding_all decide
  · with_unfolding_all decide
  · with_unfolding_all decide

/-- Witness for C7 on a fresh concrete input in the billions range. -/
theorem c7_witness :
    formatLargeNumber 3000000000 = "$" ++ toFixed2 (3000000000 / 1000000000) ++ "B" :=
  c7_formatLargeNumber_contract.1 3000000000 (by norm_num)

/-! ## C10 -/

/-- C10: every strictly negative input fails both `>=` guards of
`formatLargeNumber`, so it is never abbreviated to a "B" or "M" form and
falls through to plain currency formatting; in particular `-2500000000`
renders as `-$2,500,000,000.00`, not `$-2.50B`. -/
theorem c10_negative_never_abbreviated :
    (∀ q : ℚ, q < 0 → formatLargeNumber q = formatPrice q) ∧
    formatLargeNumber (-2500000000) = "-$2,500,000,000.00" ∧
    formatLargeNumber (-2500000000) ≠ "$-2.50B" := by
  refine ⟨?_, ?_, ?_⟩
  · intro q h
    have h9 : ¬ (1000000000 : ℚ) ≤ q :=
      not_le.mpr (lt_of_lt_of_le h (by norm_num))
    have h6 : ¬ (1000000 : ℚ) ≤ q :=
      not_le.mpr (lt_of_lt_of_le h (by norm_num))
    rw [formatLargeNumber, if_neg h9, if_neg h6]
  · with_unfolding_all decide
  · with_unfolding_all decide

/-- Witness for C10 at the concrete input `-1`. -/
theorem c10_witness : formatLargeNumber (-1) = formatPrice (-1) :=
  c10_negative_never_abbreviated.1 (-1) (by norm_num)

/-! ## C5 -/

/-- C5: the `catch` branch (reached on any fetch failure) propagates no
error — the step is a total function — and replaces the snapshot list with
the fixed 6-asset fallback (Bitcoin, Ethereum, BNB, Solana, Cardano, XRP),
which contains both positive and negative 24h changes and exactly one
asset over the threshold, stamping `lastUpdate` with the substitution time
and clearing `loading`. -/
theorem c5_fallback_substitution :
    ∀ (e : String) (genId : ℕ → ℚ) (now : ℚ) (s : AppState),
      (fetchCryptoData ⟨Except.error e, genId, now⟩ s).cryptos = mockData ∧
      (fetchCryptoData ⟨Except.error e, genId, now⟩ s).lastUpdate = now ∧
      (fetchCryptoData ⟨Except.error e, genId, now⟩ s).loading = false ∧
      mockData.map CryptoData.name =
        ["Bitcoin", "Ethereum", "BNB", "Solana", "Cardano", "XRP"] ∧
      (mockData.filter breaches).map CryptoData.name = ["Solana"] ∧
      (∃ c ∈ mockData, c.price_change_percentage_24h > 0) ∧
      (∃ c ∈ mockData, c.price_change_percentage_24h < 0) := by
  intro e genId now s
  refine ⟨rfl, rfl, rfl, by with_unfolding_all decide, by with_unfolding_all decide,
    by with_unfolding_all decide, by with_unfolding_all decide⟩

/-! ## C1 -/

/-- C1 counterexample: a failed fetch from the initial state leaves the
alert list empty even though the installed fallback dataset contains a
breaching asset (Solana at −5.5%), so the failure cycle produces no
alert — alert derivation did not run on the fallback. -/
theorem c1_counterexample :
    (fetchCryptoData ⟨Except.error "network error", fun _ => 0, 1⟩ (initState 0)).alerts
      = [] ∧
    (mockData.filter breaches).map CryptoData.name = ["Solana"] := by
  exact ⟨rfl, by with_unfolding_all decide⟩

/-- C1 (amended): alert derivation runs only in the success branch; after
a failed fetch the catch branch installs the fallback dataset but leaves
the alert list exactly unchanged, while every successful fetch feeds the
fetched list through the Alert Deriver and its prepend-truncate update. -/
theorem c1_alert_derivation_only_on_success :
    (∀ (e : String) (genId : ℕ → ℚ) (now : ℚ) (s : AppState),
      (fetchCryptoData ⟨Except.error e, genId, now⟩ s).alerts = s.alerts) ∧
    (∀ (data : List CryptoData) (genId : ℕ → ℚ) (now : ℚ) (s : AppState),
      (fetchCryptoData ⟨Except.ok data, genId, now⟩ s).alerts =
        updateAlerts (deriveAlerts genId now data) s.alerts) :=
  ⟨fun _ _ _ _ => rfl, fun _ _ _ _ => rfl⟩

/-! ## C6 -/

/-- A snapshot with a 24h change of exactly zero, exercising the direction
comparison. -/
def zeroSnapshot : CryptoData :=
  { id := "zero", name := "Zero", symbol := "zro",
    current_price := 1, price_change_percentage_24h := 0,
    market_cap := 0, total_volume := 0, high_24h := 0, low_24h := 0 }

/-- C6 counterexample: the alert-message template uses the strict
comparison `change > 0`, so a change of exactly 0 is worded "decreased",
not "increased" — the `>= 0` rule is not used consistently throughout. -/
theorem c6_counterexample :
    zeroSnapshot.price_change_percentage_24h = 0 ∧
    alertMessage zeroSnapshot = "Zero has decreased by 0.00% in 24h" ∧
    alertMessage zeroSnapshot ≠ "Zero has increased by 0.00% in 24h" := by
  refine ⟨rfl, by with_unfolding_all decide, by with_unfolding_all decide⟩

/-- C6 (amended): the card indicator uses `>= 0`, but the alert message
uses strict `> 0`, so zero would be worded "decreased" there; since alerts
are only emitted for `|change| > 5`, the change behind every emitted alert
is nonzero and its message does satisfy the `>= 0` direction rule, states
the magnitude `|change|` to two decimals, and the category is always
"price". -/
theorem c6_alert_direction_category (genId : ℕ → ℚ) (now : ℚ)
    (data : List CryptoData) (a : Alert) (ha : a ∈ deriveAlerts genId now data) :
    a.type = AlertType.price ∧
    ∃ c ∈ data, breaches c = true ∧ a.coin = c.name ∧
      a.message = c.name ++ " has " ++
        (if c.price_change_percentage_24h ≥ 0 then "increased" else "decreased") ++
        " by " ++ toFixed2 |c.price_change_percentage_24h| ++ "% in 24h" := by
  rcases mem_deriveAlertsAux ha with ⟨c, hc, hb, j, rfl⟩
  refine ⟨rfl, c, hc, hb, rfl, ?_⟩
  have h5 : (5 : ℚ) < |c.price_change_percentage_24h| := by
    simpa [breaches] using hb
  have hne : c.price_change_percentage_24h ≠ 0 := by
    intro h0
    rw [h0] at h5
    norm_num at h5
  show alertMessage c = _
  rcases lt_or_gt_of_ne hne with hneg | hpos
  · rw [alertMessage, if_neg (not_lt.mpr (le_of_lt hneg)), if_neg (not_le.mpr hneg)]
  · rw [alertMessage, if_pos hpos, if_pos (le_of_lt hpos)]

/-- The alert the scan emits for the Solana entry of the fallback dataset,
with id source `Date.now() + Math.random() = 7` and clock `3`. -/
def solanaAlert : Alert :=
  mkAlert 7 3
    { id := "solana", name := "Solana", symbol := "sol",
      current_price := 98, price_change_percentage_24h := -5.5,
      market_cap := 42000000000, total_volume := 2500000000,
      high_24h := 105, low_24h := 96 }

/-- Witness for C6 on the alert derived from the fallback dataset. -/
theorem c6_witness :
    solanaAlert.type = AlertType.price ∧
    ∃ c ∈ mockData, breaches c = true ∧ solanaAlert.coin = c.name ∧
      solanaAlert.message = c.name ++ " has " ++
        (if c.price_change_percentage_24h ≥ 0 then "increased" else "decreased") ++
        " by " ++ toFixed2 |c.price_change_percentage_24h| ++ "% in 24h" :=
  c6_alert_direction_category (fun _ => 7) 3 mockData solanaAlert
    (by with_unfolding_all decide)

/-! ## C8 -/

/-- C8 counterexample: the fallback dataset is not in descending
market-cap order — its fifth entry (Cardano, 18e9) has a smaller market
cap than its sixth (XRP, 33e9) — so an installed fetch result is not
always sorted by descending market capitalization. -/
theorem c8_counterexample :
    mockData.map CryptoData.market_cap =
      [830000000000, 270000000000, 47000000000, 42000000000,
        18000000000, 33000000000] ∧
    ¬ List.Sorted (fun a b : CryptoData => b.market_cap ≤ a.market_cap) mockData := by
  constructor
  · rfl
  · intro h
    simp only [mockData] at h
    have h45 :=
      List.rel_of_sorted_cons (h.of_cons.of_cons.of_cons.of_cons) _
        (List.mem_cons_self _ _)
    exact absurd h45 (by with_unfolding_all decide)

/-- C8 (amended): identifiers in the fallback dataset are pairwise unique,
a successful fetch installs the provider's list unmodified (so whatever
order the provider sent is preserved), and the Presenter renders cards in
exactly the order of the installed list; descending market-cap order,
however, does not hold for the fallback dataset. -/
theorem c8_ids_unique_order_preserved :
    (mockData.map CryptoData.id).Nodup ∧
    (∀ (data : List CryptoData) (genId : ℕ → ℚ) (now : ℚ) (s : AppState),
      (fetchCryptoData ⟨Except.ok data, genId, now⟩ s).cryptos = data) ∧
    (∀ s : AppState, (renderCards s).map Card.title = s.cryptos.map CryptoData.name) := by
  refine ⟨by with_unfolding_all decide, fun _ _ _ _ => rfl, ?_⟩
  intro s
  simp [renderCards, List.map_map, Function.comp, renderCard]

/-! ## C9 -/

theorem fetchCryptoData_loading (inp : FetchInput) (s : AppState) :
    (fetchCryptoData inp s).loading = false := by
  rcases inp with ⟨res, genId, now⟩
  cases res <;> rfl

theorem statesTrace_loading_of_false :
    ∀ (inps : List FetchInput) (s : AppState), s.loading = false →
      (statesTrace inps s).map AppState.loading =
        List.replicate (inps.length + 1) false := by
  intro inps
  induction inps with
  | nil =>
      intro s hs
      simp [statesTrace, hs, List.replicate]
  | cons i rest ih =>
      intro s hs
      rw [statesTrace, List.map_cons, hs,
        ih (fetchCryptoData i s) (fetchCryptoData_loading i s)]
      rfl

/-- C9: along any sequence of refresh cycles the loading flag is true in
the initial state and false in every later state — both branches of every
cycle end with `loading = false` and nothing ever sets it back — so it
transitions from true to false exactly once (at the first resolved
fetch). -/
theorem c9_loading_true_then_false :
    ∀ (t0 : ℚ) (inps : List FetchInput),
      (statesTrace inps (initState t0)).map AppState.loading =
        true :: List.replicate inps.length false := by
  intro t0 inps
  cases inps with
  | nil => rfl
  | cons i rest =>
      rw [statesTrace, List.map_cons,
        statesTrace_loading_of_false rest (fetchCryptoData i (initState t0))
          (fetchCryptoData_loading i (initState t0))]
      rfl

/-! ## C4 -/

/-- C4: in a successful cycle, if at least one snapshot breaches the
threshold, the new alert list is the cycle's block of new alerts (whose
coins follow the asset-list order of the breaching snapshots) prepended to
the previous list and truncated to 5; if no snapshot breaches, the alert
list is exactly unchanged. -/
theorem c4_cycle_update_rule (genId : ℕ → ℚ) (now : ℚ)
    (data : List CryptoData) (s : AppState) :
    ((∃ c ∈ data, breaches c = true) →
      (fetchCryptoData ⟨Except.ok data, genId, now⟩ s).alerts =
        (deriveAlerts genId now data ++ s.alerts).take 5 ∧
      (deriveAlerts genId now data).map Alert.coin =
        (data.filter breaches).map CryptoData.name) ∧
    ((∀ c ∈ data, breaches c = false) →
      (fetchCryptoData ⟨Except.ok data, genId, now⟩ s).alerts = s.alerts) := by
  constructor
  · rintro ⟨c, hc, hb⟩
    have hne : deriveAlerts genId now data ≠ [] := by
      intro h0
      have := deriveAlertsAux_eq_nil_iff.mp h0 c hc
      rw [hb] at this
      exact Bool.true_eq_false.mp this
    have hlen : 0 < (deriveAlerts genId now data).length := List.length_pos.mpr hne
    constructor
    · show updateAlerts (deriveAlerts genId now data) s.alerts = _
      rw [updateAlerts, if_pos hlen]
    · exact deriveAlertsAux_map_coin genId now data 0
  · intro hall
    have h0 : deriveAlerts genId now data = [] := deriveAlertsAux_eq_nil_iff.mpr hall
    show updateAlerts (deriveAlerts genId now data) s.alerts = _
    rw [updateAlerts, h0]
    rfl

/-- Witness for C4: a breaching cycle (the fallback dataset fetched
successfully) prepends and truncates. -/
theorem c4_witness :
    (fetchCryptoData ⟨Except.ok mockData, fun _ => 0, 1⟩ (initState 0)).alerts =
      (deriveAlerts (fun _ => 0) 1 mockData ++ (initState 0).alerts).take 5 ∧
    (deriveAlerts (fun _ => 0) 1 mockData).map Alert.coin =
      (mockData.filter breaches).map CryptoData.name :=
  (c4_cycle_update_rule (fun _ => 0) 1 mockData (initState 0)).1
    (by with_unfolding_all decide)

/-! ## C3 -/

/-- Invariant carried across refresh cycles: at most 5 alerts, timestamps
nonincreasing from head to tail, and all timestamps at most `t`. -/
def AlertsInv (t : ℚ) (l : List Alert) : Prop :=
  l.length ≤ 5 ∧
  List.Sorted (fun a b : Alert => b.timestamp ≤ a.timestamp) l ∧
  ∀ a ∈ l, a.timestamp ≤ t

theorem alertsInv_mono {t t' : ℚ} {l : List Alert} (h : t ≤ t')
    (hl : AlertsInv t l) : AlertsInv t' l :=
  ⟨hl.1, hl.2.1, fun a ha => le_trans (hl.2.2 a ha) h⟩

theorem timestamp_of_mem_deriveAlerts {genId : ℕ → ℚ} {now : ℚ}
    {data : List CryptoData} {a : Alert} (h : a ∈ deriveAlerts genId now data) :
    a.timestamp = now := by
  rcases mem_deriveAlertsAux h with ⟨c, _, _, j, rfl⟩
  rfl

theorem alertsInv_step (inp : FetchInput) (s : AppState) {t : ℚ}
    (hinv : AlertsInv t s.alerts) (ht : t ≤ inp.now) :
    AlertsInv inp.now (fetchCryptoData inp s).alerts := by
  rcases inp with ⟨res, genId, now⟩
  cases res with
  | error e => exact alertsInv_mono ht hinv
  | ok data =>
      show AlertsInv now (updateAlerts (deriveAlerts genId now data) s.alerts)
      rw [updateAlerts]
      by_cases hlen : 0 < (deriveAlerts genId now data).length
      · rw [if_pos hlen]
        refine ⟨?_, ?_, ?_⟩
        · rw [List.length_take]
          exact min_le_left _ _
        · apply List.Pairwise.sublist (List.take_sublist _ _)
          rw [List.pairwise_append]
          refine ⟨?_, hinv.2.1, ?_⟩
          · apply List.pairwise_of_forall_mem_list
            intro a ha b hb
            rw [timestamp_of_mem_deriveAlerts ha, timestamp_of_mem_deriveAlerts hb]
          · intro a ha b hb
            rw [timestamp_of_mem_deriveAlerts ha]
            exact le_trans (hinv.2.2 b hb) ht
        · intro a ha
          have ha2 := (List.take_sublist _ _).mem ha
          rcases List.mem_append.mp ha2 with h1 | h2
          · exact le_of_eq (timestamp_of_mem_deriveAlerts h1)
          · exact le_trans (hinv.2.2 a h2) ht
      · rw [if_neg hlen]
        exact alertsInv_mono ht hinv

theorem alertsInv_run :
    ∀ (inps : List FetchInput) (s : AppState) (t : ℚ), AlertsInv t s.alerts →
      List.Chain' (· < ·) (t :: inps.map FetchInput.now) →
      ∃ u : ℚ, AlertsInv u (runCycles inps s).alerts := by
  intro inps
  induction inps with
  | nil => exact fun s t h _ => ⟨t, h⟩
  | cons i rest ih =>
      intro s t h hchain
      rw [List.map_cons, List.chain'_cons] at hchain
      exact ih (fetchCryptoData i s) i.now
        (alertsInv_step i s h (le_of_lt hchain.1)) hchain.2

/-- C3: starting from the empty alert list, after any sequence of refresh
cycles with strictly increasing clock times the alert list never exceeds
5 entries and its creation timestamps are nonincreasing from head to tail
— alerts of a later cycle (strictly newer timestamp) always precede
alerts of an earlier cycle. -/
theorem c3_alert_history_bounded_newest_first (t0 : ℚ) (inps : List FetchInput)
    (hchain : List.Chain' (· < ·) (t0 :: inps.map FetchInput.now)) :
    (runCycles inps (initState t0)).alerts.length ≤ 5 ∧
    List.Sorted (fun a b : Alert => b.timestamp ≤ a.timestamp)
      ((runCycles inps (initState t0)).alerts) := by
  have hbase : AlertsInv t0 (initState t0).alerts := by
    refine ⟨?_, List.sorted_nil, ?_⟩
    · show (0 : ℕ) ≤ 5
      norm_num
    · intro a ha
      exact absurd ha (List.not_mem_nil a)
  rcases alertsInv_run inps (initState t0) t0 hbase hchain with ⟨u, hu⟩
  exact ⟨hu.1, hu.2.1⟩

/-- Witness for C3: two cycles — a successful fetch of the fallback
dataset, then a failed fetch — from the initial state at time 0. -/
theorem c3_witness :
    (runCycles
        [⟨Except.ok mockData, fun _ => 0, 1⟩, ⟨Except.error "boom", fun _ => 0, 2⟩]
        (initState 0)).alerts.length ≤ 5 ∧
    List.Sorted (fun a b : Alert => b.timestamp ≤ a.timestamp)
      ((runCycles
          [⟨Except.ok mockData, fun _ => 0, 1⟩, ⟨Except.error "boom", fun _ => 0, 2⟩]
          (initState 0)).alerts) :=
  c3_alert_history_bounded_newest_first 0
    [⟨Except.ok mockData, fun _ => 0, 1⟩, ⟨Except.error "boom", fun _ => 0, 2⟩]
    (List.chain'_iff_pairwise.mpr (by with_unfolding_all decide))
